import Mathlib

set_option maxRecDepth 40000

/-!
Verification of the learning-in-public automation scripts.

Python strings are embedded as `List Char`; string operations used by the
scripts (strip, replace, slicing, the blank-line-collapse loop) are embedded
as executable Lean functions.  External effects (the Gemini generation call,
the tweepy posting call, file reads and writes, environment variables) are
embedded as explicit environment records and event traces; exceptions become
`Except` errors.
-/

/-- Characters treated as whitespace by Python `str.strip()`
(restricted to the ASCII whitespace actually relevant to these scripts). -/
def isPySpace (c : Char) : Bool :=
  c = ' ' || c = '\t' || c = '\n' || c = '\r' || c = '\x0b' || c = '\x0c'

/-- Python `s.strip()`: drop leading and trailing whitespace. -/
def pyStrip (l : List Char) : List Char :=
  ((l.dropWhile isPySpace).reverse.dropWhile isPySpace).reverse

/-- Python `s.rstrip()`: drop trailing whitespace. -/
def pyRstrip (l : List Char) : List Char :=
  (l.reverse.dropWhile isPySpace).reverse

/-- One pass of Python `s.replace("\n\n\n", "\n\n")`: replace every
non-overlapping occurrence, scanning left to right. -/
def pyReplace3 : List Char → List Char
  | a :: b :: c :: rest =>
    if a = '\n' && b = '\n' && c = '\n' then
      '\n' :: '\n' :: pyReplace3 rest
    else
      a :: pyReplace3 (b :: c :: rest)
  | l => l

/-- Python `"\n\n\n" in s`: does a run of three newlines occur? -/
def has3NL : List Char → Bool
  | a :: b :: c :: rest => (a = '\n' && b = '\n' && c = '\n') || has3NL (b :: c :: rest)
  | _ => false

/-- The loop `while "\n\n\n" in tweet: tweet = tweet.replace("\n\n\n", "\n\n")`,
run with explicit fuel.  Each iteration strictly shrinks the string, so fuel
equal to the length of the string always reaches the fixpoint. -/
def collapseAux : Nat → List Char → List Char
  | 0, l => l
  | fuel + 1, l => if has3NL l then collapseAux fuel (pyReplace3 l) else l

/-- The blank-line-collapse loop of `paraphrase_for_tweet` (lines 66-67 of
script.py): iterate `replace("\n\n\n", "\n\n")` until no triple newline
remains.  Fuel `l.length` provably suffices. -/
def collapseNL (l : List Char) : List Char := collapseAux l.length l

def MAX_TWEET_LENGTH : Nat := 280

def MAX_LINKEDIN_LENGTH : Nat := 3000

/-- The tweet-shaping pipeline of `paraphrase_for_tweet` (script.py lines
65-73): collapse blank lines, then if the result exceeds 280 characters
truncate to 279 characters and append one ellipsis character. -/
def shapeTweet (l : List Char) : List Char :=
  if (collapseNL l).length > MAX_TWEET_LENGTH then
    (collapseNL l).take (MAX_TWEET_LENGTH - 1) ++ ['…']
  else collapseNL l

/-- Newline-to-space substitution used by tweet.py. -/
def nlToSpace (c : Char) : Char := if c = '\n' then ' ' else c

/-- The shaping applied by `paraphrase_text` in tweet.py (lines 41-47):
strip, replace each newline by a space, then if the result exceeds 280
characters truncate to 277 characters and append three ASCII dots. -/
def shapeTweetPy (l : List Char) : List Char :=
  if ((pyStrip l).map nlToSpace).length > 280 then
    ((pyStrip l).map nlToSpace).take 277 ++ ['.', '.', '.']
  else (pyStrip l).map nlToSpace

/-- The shaping applied by `paraphrase_for_linkedin` (X Automation script.py
lines 109-114): strip is applied by the caller on `response.text`; if the
result exceeds 3000 characters truncate to 2999 and append one ellipsis. -/
def shapeLinkedin (l : List Char) : List Char :=
  if l.length > MAX_LINKEDIN_LENGTH then l.take (MAX_LINKEDIN_LENGTH - 1) ++ ['…'] else l

/-- `truncate_tweet` (script.py lines 102-112): empty in, empty out; within
the limit, unchanged; otherwise truncate to 279 characters plus ellipsis. -/
def truncate_tweet (text : List Char) : List Char :=
  if text = [] then []
  else if text.length ≤ MAX_TWEET_LENGTH then text
  else text.take (MAX_TWEET_LENGTH - 1) ++ ['…']

/-- Python exceptions that the embedded code can raise to its caller. -/
inductive PyError where
  /-- `EnvironmentError` raised by `_get_env_var`. -/
  | envError
deriving DecidableEq

/-- Outcome of the external `client.models.generate_content` call: either a
response whose `.text` is the given string, or an exception during the call. -/
inductive GenOutcome where
  | ok (text : List Char)
  | exc
deriving DecidableEq

/-- External state seen by a generation function: the value of
`os.getenv("GEMINI_API_KEY")` and the outcome of the API call. -/
structure GenEnv where
  geminiKey : Option (List Char)
  result : GenOutcome
deriving DecidableEq

/-- `_get_env_var` (script.py lines 15-19): raises `EnvironmentError` when the
variable is unset or empty (`if not val`), otherwise returns its value. -/
def get_env_var (v : Option (List Char)) : Except PyError (List Char) :=
  match v with
  | none => .error .envError
  | some s => if s = [] then .error .envError else .ok s

/-- `paraphrase_for_tweet` (script.py lines 22-73; identical control flow in
X Automation script.py lines 24-69): empty input returns the empty string at
once; `_get_env_var` runs outside any try block, so a missing key raises; an
exception from the API call is caught and yields the empty string; otherwise
the response text is stripped and shaped. -/
def paraphrase_for_tweet (env : GenEnv) (text : List Char) :
    Except PyError (List Char) :=
  if text = [] then .ok []
  else
    match get_env_var env.geminiKey with
    | .error e => .error e
    | .ok _ =>
      match env.result with
      | .exc => .ok []
      | .ok t => .ok (shapeTweet (pyStrip t))

/-- `paraphrase_for_linkedin` (X Automation script.py lines 72-114): same
structure as the tweet variant but with the 3000-character shaping and no
blank-line collapsing. -/
def paraphrase_for_linkedin (env : GenEnv) (text : List Char) :
    Except PyError (List Char) :=
  if text = [] then .ok []
  else
    match get_env_var env.geminiKey with
    | .error e => .error e
    | .ok _ =>
      match env.result with
      | .exc => .ok []
      | .ok t => .ok (shapeLinkedin (pyStrip t))

/-- Outcome of initializing the `tweepy.Client` (credential lookup plus
constructor): success, a missing credential (`EnvironmentError`, exit 2), or
any other constructor exception (exit 3). -/
inductive InitOutcome where
  | ok
  | missingCred
  | initError
deriving DecidableEq

/-- Outcome of `read_text_from_file`: the raw file contents, or an exception
(file absent or unreadable). -/
inductive ReadOutcome where
  | ok (contents : List Char)
  | err
deriving DecidableEq

/-- Outcome of `client.create_tweet`: a response with an optional id, a
`TweepyException`, or any other exception. -/
inductive PostOutcome where
  | ok (tweetId : Option (List Char))
  | apiError
  | unexpectedError
deriving DecidableEq

/-- Externally visible effects of a run: each call to the posting API with the
text posted, and each record appended to the output file with its rendered
contents. -/
inductive Event where
  | postTweet (text : List Char)
  | writeRecord (contents : List Char)
deriving DecidableEq

/-- The block of text written by one `save_output` call (X Automation
script.py lines 158-177), with the timestamp passed in explicitly. -/
def save_output_contents (ts tweet linkedin : List Char)
    (note : Option (List Char)) : List Char :=
  ("===== Generated on ".toList ++ ts ++ "Z =====\n".toList) ++
  (match note with
   | some n => "NOTE: ".toList ++ n ++ "\n".toList
   | none => []) ++
  ("--- X / TWEET ---\n".toList ++ pyRstrip tweet ++ "\n\n".toList ++
   "--- LINKEDIN POST ---\n".toList ++ pyRstrip linkedin ++ "\n".toList ++
   "\n".toList)

/-- External state for one run of the single-platform script (src/script.py). -/
structure Env1 where
  /-- whether `DRY_RUN` lowers to `"true"`. -/
  dryRun : Bool
  /-- outcome of building the `tweepy.Client` from the four X credentials. -/
  init : InitOutcome
  /-- outcome of reading `text.txt`. -/
  read : ReadOutcome
  /-- Gemini key and generation outcome. -/
  gen : GenEnv
  /-- outcome of `client.create_tweet`. -/
  post : PostOutcome
deriving DecidableEq

namespace V1

/-- `generate_learning_update` (src/script.py lines 84-99): a read failure or
empty (stripped) file yields the empty string; otherwise the text is
paraphrased, which may raise. -/
def generate_learning_update (e : Env1) : Except PyError (List Char) :=
  match e.read with
  | .err => .ok []
  | .ok raw =>
    if pyStrip raw = [] then .ok []
    else paraphrase_for_tweet e.gen (pyStrip raw)

/-- `main` of src/script.py (lines 115-166), returning the exit code and the
trace of posting calls (this variant writes no output file).  The client is
initialized before generation; a `PyError` escaping `generate_learning_update`
crashes the process (modelled as `.error`). -/
def main (e : Env1) : Except PyError (Nat × List Event) :=
  match e.init with
  | .missingCred => .ok (2, [])
  | .initError => .ok (3, [])
  | .ok =>
    match generate_learning_update e with
    | .error err => .error err
    | .ok tweet0 =>
      if truncate_tweet tweet0 = [] then .ok (4, [])
      else if e.dryRun then .ok (0, [])
      else
        match e.post with
        | .apiError => .ok (5, [.postTweet (truncate_tweet tweet0)])
        | .unexpectedError => .ok (6, [.postTweet (truncate_tweet tweet0)])
        | .ok _ => .ok (0, [.postTweet (truncate_tweet tweet0)])

end V1

/-- External state for one run of the two-platform script
(src/Tweet/X Automation/script.py). -/
structure Env2 where
  /-- whether `DRY_RUN` lowers to `"true"`. -/
  dryRun : Bool
  /-- outcome of reading `input.txt`. -/
  read : ReadOutcome
  /-- the value of `os.getenv("GEMINI_API_KEY")`. -/
  geminiKey : Option (List Char)
  /-- outcome of the tweet generation call. -/
  genTweet : GenOutcome
  /-- outcome of the LinkedIn generation call. -/
  genLinkedin : GenOutcome
  /-- outcome of building the `tweepy.Client`. -/
  init : InitOutcome
  /-- the `--yes` flag. -/
  autoYes : Bool
  /-- result of `input()`: `none` models an exception (no TTY). -/
  promptAnswer : Option (List Char)
  /-- outcome of `client.create_tweet`. -/
  post : PostOutcome
  /-- `datetime.utcnow().isoformat()` used in the record header. -/
  ts : List Char
deriving DecidableEq

namespace V2

/-- `generate_learning_update` (X Automation script.py lines 125-145): a read
failure or empty stripped file yields two empty strings; otherwise both
paraphrase functions run in order, each able to raise. -/
def generate_learning_update (e : Env2) :
    Except PyError (List Char × List Char) :=
  match e.read with
  | .err => .ok ([], [])
  | .ok raw =>
    if pyStrip raw = [] then .ok ([], [])
    else
      match paraphrase_for_tweet ⟨e.geminiKey, e.genTweet⟩ (pyStrip raw) with
      | .error err => .error err
      | .ok tw =>
        match paraphrase_for_linkedin ⟨e.geminiKey, e.genLinkedin⟩ (pyStrip raw) with
        | .error err => .error err
        | .ok lp => .ok (tw, lp)

/-- The confirmation gate (X Automation script.py lines 233-241): `--yes`
confirms; otherwise the prompt answer, stripped and lowercased, must be
exactly `"y"`; an `input()` exception answers `"n"`. -/
def confirmAnswer (e : Env2) : Bool :=
  e.autoYes ||
    (match e.promptAnswer with
     | none => false
     | some a => decide ((pyStrip a).map Char.toLower = ['y']))

/-- `main` of X Automation script.py (lines 180-272), returning the exit code
and the trace of posting calls and output-file records, in order.  Generation
runs before client initialization; the record is always saved once the two
texts are non-empty; only the tweet is ever posted. -/
def main (e : Env2) : Except PyError (Nat × List Event) :=
  match generate_learning_update e with
  | .error err => .error err
  | .ok (tweet0, linkedin_post) =>
    if truncate_tweet tweet0 = [] then .ok (4, [])
    else if linkedin_post = [] then .ok (5, [])
    else if e.dryRun then
      .ok (0, [.writeRecord (save_output_contents e.ts (truncate_tweet tweet0)
        linkedin_post (some "DRY RUN".toList))])
    else
      match e.init with
      | .missingCred =>
        .ok (2, [.writeRecord (save_output_contents e.ts (truncate_tweet tweet0)
          linkedin_post none)])
      | .initError =>
        .ok (3, [.writeRecord (save_output_contents e.ts (truncate_tweet tweet0)
          linkedin_post none)])
      | .ok =>
        if confirmAnswer e then
          match e.post with
          | .apiError =>
            .ok (6, [.writeRecord (save_output_contents e.ts (truncate_tweet tweet0)
                linkedin_post none),
              .postTweet (truncate_tweet tweet0),
              .writeRecord (save_output_contents e.ts (truncate_tweet tweet0)
                linkedin_post (some "Failed to post tweet (API error)".toList))])
          | .unexpectedError =>
            .ok (7, [.writeRecord (save_output_contents e.ts (truncate_tweet tweet0)
                linkedin_post none),
              .postTweet (truncate_tweet tweet0),
              .writeRecord (save_output_contents e.ts (truncate_tweet tweet0)
                linkedin_post
                (some "Failed to post tweet (unexpected error)".toList))])
          | .ok tid =>
            .ok (0, [.writeRecord (save_output_contents e.ts (truncate_tweet tweet0)
                linkedin_post none),
              .postTweet (truncate_tweet tweet0),
              .writeRecord (save_output_contents e.ts (truncate_tweet tweet0)
                linkedin_post (some (match tid with
                  | some i => "Tweet posted (id=".toList ++ i ++ ")".toList
                  | none => "Tweet posted (no id returned)".toList)))])
        else
          .ok (0, [.writeRecord (save_output_contents e.ts (truncate_tweet tweet0)
              linkedin_post none),
            .writeRecord (save_output_contents e.ts (truncate_tweet tweet0)
              linkedin_post (some "User skipped posting".toList))])

end V2

/-- Concrete two-platform run in which everything succeeds except the posting
call, which raises a `TweepyException` (fields: dryRun, read, geminiKey,
genTweet, genLinkedin, init, autoYes, promptAnswer, post, ts). -/
def envC4api : Env2 :=
  ⟨false, .ok ['x'], some ['k'], .ok ['h', 'i'], .ok ['p'], .ok, true, none,
    .apiError, []⟩

/-- Concrete single-platform run with an empty input file and working
credentials (fields: dryRun, init, read, gen, post). -/
def envC4empty : Env1 :=
  ⟨false, .ok, .ok [], ⟨some ['k'], .ok ['t']⟩, .ok none⟩

/-- Concrete two-platform run whose LinkedIn generation call fails, so the
long-form post is empty while the tweet is not. -/
def envC4lpEmpty : Env2 :=
  ⟨false, .ok ['x'], some ['k'], .ok ['h'], .exc, .ok, true, none, .ok none, []⟩

/-- Concrete single-platform dry run with successful generation. -/
def envC5dry1 : Env1 :=
  ⟨true, .ok, .ok ['x'], ⟨some ['k'], .ok ['h', 'i']⟩, .ok none⟩

/-- Concrete two-platform dry run with successful generation. -/
def envC5dry2 : Env2 :=
  ⟨true, .ok ['x'], some ['k'], .ok ['h'], .ok ['p'], .ok, true, none,
    .ok none, ['T']⟩

/-- Concrete two-platform run that reaches the posting call and succeeds. -/
def envC9post : Env2 :=
  ⟨false, .ok ['x'], some ['k'], .ok ['h', 'i'], .ok ['p'], .ok, true, none,
    .ok none, []⟩

/-- The event trace actually produced by `envC9post`. -/
def traceC9 : List Event := ((V2.main envC9post).toOption.getD (0, [])).2

/-! ## Lemmas about the collapse loop -/

theorem pyReplace3_length_le (l : List Char) : (pyReplace3 l).length ≤ l.length := by
  match l with
  | [] => simp [pyReplace3]
  | [a] => simp [pyReplace3]
  | [a, b] => simp [pyReplace3]
  | a :: b :: c :: rest =>
    rw [pyReplace3]
    split
    · have := pyReplace3_length_le rest
      simp only [List.length_cons]
      omega
    · have := pyReplace3_length_le (b :: c :: rest)
      simp only [List.length_cons] at *
      omega
termination_by l.length

theorem pyReplace3_length_lt (l : List Char) (h : has3NL l = true) :
    (pyReplace3 l).length < l.length := by
  match l with
  | [] => simp [has3NL] at h
  | [a] => simp [has3NL] at h
  | [a, b] => simp [has3NL] at h
  | a :: b :: c :: rest =>
    rw [pyReplace3]
    split
    · have := pyReplace3_length_le rest
      simp only [List.length_cons]
      omega
    · rw [has3NL] at h
      rename_i hcond
      simp only [hcond, Bool.false_or] at h
      have := pyReplace3_length_lt (b :: c :: rest) h
      simp only [List.length_cons] at *
      omega
termination_by l.length

theorem collapseAux_length_le (fuel : Nat) (l : List Char) :
    (collapseAux fuel l).length ≤ l.length := by
  induction fuel generalizing l with
  | zero => simp [collapseAux]
  | succ n ih =>
    rw [collapseAux]
    split
    · exact le_trans (ih (pyReplace3 l)) (pyReplace3_length_le l)
    · exact le_refl _

theorem collapseAux_fixpoint (fuel : Nat) (l : List Char) (h : l.length ≤ fuel) :
    has3NL (collapseAux fuel l) = false := by
  induction fuel generalizing l with
  | zero =>
    have : l = [] := List.eq_nil_of_length_eq_zero (Nat.le_zero.mp h)
    subst this
    simp [collapseAux, has3NL]
  | succ n ih =>
    rw [collapseAux]
    split
    · rename_i h3
      exact ih (pyReplace3 l) (by have := pyReplace3_length_lt l h3; omega)
    · rename_i h3
      exact Bool.of_not_eq_true h3

theorem collapseAux_of_no3NL (fuel : Nat) (l : List Char) (h : has3NL l = false) :
    collapseAux fuel l = l := by
  cases fuel with
  | zero => rfl
  | succ n => rw [collapseAux]; simp [h]

theorem collapseNL_length_le (l : List Char) : (collapseNL l).length ≤ l.length :=
  collapseAux_length_le l.length l

theorem collapseNL_no3NL (l : List Char) : has3NL (collapseNL l) = false :=
  collapseAux_fixpoint l.length l (le_refl _)

/-! ## Length bounds for the shaping functions -/

theorem shapeTweet_length_le (l : List Char) : (shapeTweet l).length ≤ 280 := by
  unfold shapeTweet MAX_TWEET_LENGTH
  split
  · rename_i hgt
    simp only [List.length_append, List.length_take, List.length_cons, List.length_nil]
    omega
  · rename_i hle
    omega

theorem truncate_tweet_length_le (l : List Char) : (truncate_tweet l).length ≤ 280 := by
  unfold truncate_tweet MAX_TWEET_LENGTH
  split
  · simp
  · split
    · rename_i h; exact h
    · simp only [List.length_append, List.length_take, List.length_cons, List.length_nil]
      omega

theorem shapeLinkedin_length_le (l : List Char) : (shapeLinkedin l).length ≤ 3000 := by
  unfold shapeLinkedin MAX_LINKEDIN_LENGTH
  split
  · simp only [List.length_append, List.length_take, List.length_cons, List.length_nil]
    omega
  · rename_i hle
    omega

theorem paraphrase_for_tweet_ok_length (env : GenEnv) (text res : List Char)
    (h : paraphrase_for_tweet env text = .ok res) : res.length ≤ 280 := by
  unfold paraphrase_for_tweet at h
  split at h
  · simp only [Except.ok.injEq] at h
    subst h; simp
  · split at h
    · exact Except.noConfusion h
    · split at h
      · simp only [Except.ok.injEq] at h
        subst h; simp
      · simp only [Except.ok.injEq] at h
        subst h
        exact shapeTweet_length_le _

theorem paraphrase_for_linkedin_ok_length (env : GenEnv) (text res : List Char)
    (h : paraphrase_for_linkedin env text = .ok res) : res.length ≤ 3000 := by
  unfold paraphrase_for_linkedin at h
  split at h
  · simp only [Except.ok.injEq] at h
    subst h; simp
  · split at h
    · exact Except.noConfusion h
    · split at h
      · simp only [Except.ok.injEq] at h
        subst h; simp
      · simp only [Except.ok.injEq] at h
        subst h
        exact shapeLinkedin_length_le _

/-! ## Claim theorems -/

/-- Claim C2: every shaping function returns a string within its platform
ceiling (280 for `shapeTweet` and `truncate_tweet`, 3000 for the LinkedIn
shaping), and the paraphrase functions, whenever they return normally, return
a string (never a missing value) within the ceiling. -/
theorem C2_length_ceiling (env : GenEnv) (text l : List Char) :
    (shapeTweet l).length ≤ 280 ∧
    (truncate_tweet l).length ≤ 280 ∧
    (shapeLinkedin l).length ≤ 3000 ∧
    (∀ res, paraphrase_for_tweet env text = .ok res → res.length ≤ 280) ∧
    (∀ res, paraphrase_for_linkedin env text = .ok res → res.length ≤ 3000) :=
  ⟨shapeTweet_length_le l, truncate_tweet_length_le l, shapeLinkedin_length_le l,
    fun res h => paraphrase_for_tweet_ok_length env text res h,
    fun res h => paraphrase_for_linkedin_ok_length env text res h⟩

/-- Claim C2 witness at concrete inputs: a 300-character input is shaped to
within the limit, and a failing generation call yields the empty string,
which is within the limit. -/
theorem C2_length_ceiling_witness :
    (shapeTweet (List.replicate 300 'a')).length ≤ 280 ∧
    (([] : List Char)).length ≤ 280 :=
  ⟨(C2_length_ceiling ⟨some ['k'], GenOutcome.exc⟩ ['x'] (List.replicate 300 'a')).1,
   (C2_length_ceiling ⟨some ['k'], GenOutcome.exc⟩ ['x'] (List.replicate 300 'a')).2.2.2.1
     [] rfl⟩

/-- Claim C6: for every input of at most 280 characters the tweet shaping
applies no truncation: it returns exactly the blank-line-collapsed string. -/
theorem C6_no_truncation_within_limit (l : List Char) (h : l.length ≤ 280) :
    shapeTweet l = collapseNL l := by
  have hle := collapseNL_length_le l
  unfold shapeTweet
  split
  · rename_i hgt
    unfold MAX_TWEET_LENGTH at hgt
    omega
  · rfl

/-- Claim C6 witness: a short input with a triple blank line is collapsed but
not truncated. -/
theorem C6_no_truncation_within_limit_witness :
    "a\n\n\n\nb".toList.length ≤ 280 ∧
    shapeTweet "a\n\n\n\nb".toList = collapseNL "a\n\n\n\nb".toList :=
  ⟨by decide, C6_no_truncation_within_limit "a\n\n\n\nb".toList (by decide)⟩

/-- Claim C7: the blank-line-collapse loop is idempotent. -/
theorem C7_collapse_idempotent (l : List Char) :
    collapseNL (collapseNL l) = collapseNL l :=
  collapseAux_of_no3NL (collapseNL l).length (collapseNL l) (collapseNL_no3NL l)

/-- Claim C8: shaping the empty string yields the empty string, and
`paraphrase_for_tweet` on empty input returns the empty string for every
environment whatsoever — in particular with no API key and a failing API —
so no credential lookup or generation call is attempted. -/
theorem C8_empty_input (env : GenEnv) :
    shapeTweet [] = [] ∧ truncate_tweet [] = [] ∧
    paraphrase_for_tweet env [] = .ok [] :=
  ⟨rfl, rfl, rfl⟩

/-- Claim C10: each iteration of the collapse loop strictly decreases the
length of the string, and consequently the loop reaches, within `l.length`
iterations, a string with no triple newline (the loop guard is false). -/
theorem C10_collapse_terminates (l : List Char) :
    (has3NL l = true → (pyReplace3 l).length < l.length) ∧
    has3NL (collapseNL l) = false :=
  ⟨pyReplace3_length_lt l, collapseNL_no3NL l⟩

/-- Claim C10 witness at a concrete input containing a triple newline. -/
theorem C10_collapse_terminates_witness :
    (pyReplace3 ['\n', '\n', '\n', '\n']).length < 4 ∧
    has3NL (collapseNL ['\n', '\n', '\n', '\n']) = false :=
  ⟨(C10_collapse_terminates ['\n', '\n', '\n', '\n']).1 (by decide),
   (C10_collapse_terminates ['\n', '\n', '\n', '\n']).2⟩

/-- Claim C1 as stated is false: this 281-character input (200 letters
followed by 81 newlines) exceeds 280 characters, yet after blank-line
collapsing it is only 202 characters long, so the pipeline returns it
untruncated — not 280 characters and not ending in an ellipsis. -/
theorem C1_counterexample :
    (List.replicate 200 'a' ++ List.replicate 81 '\n').length > 280 ∧
    (shapeTweet (List.replicate 200 'a' ++ List.replicate 81 '\n')).length = 202 ∧
    ¬((shapeTweet (List.replicate 200 'a' ++ List.replicate 81 '\n')).length = 280 ∧
      (shapeTweet (List.replicate 200 'a' ++ List.replicate 81 '\n')).getLast?
        = some '…') := by
  refine ⟨by decide, by decide, ?_⟩
  intro h
  have := h.1
  revert this
  decide

/-- Claim C1 amended: when the blank-line-collapsed string exceeds 280
characters, `paraphrase_for_tweet` shaping truncates it to 279 characters and
appends one ellipsis, yielding exactly 280 characters ending in the ellipsis;
the `paraphrase_text` shaping in tweet.py instead truncates to 277 characters
and appends three ASCII dots, yielding exactly 280 characters ending in a
dot, not an ellipsis. -/
theorem C1_amended_truncation :
    (∀ l : List Char, 280 < (collapseNL l).length →
      shapeTweet l = (collapseNL l).take 279 ++ ['…'] ∧
      (shapeTweet l).length = 280 ∧
      (shapeTweet l).getLast? = some '…') ∧
    (∀ l : List Char, 280 < ((pyStrip l).map nlToSpace).length →
      shapeTweetPy l = ((pyStrip l).map nlToSpace).take 277 ++ ['.', '.', '.'] ∧
      (shapeTweetPy l).length = 280 ∧
      (shapeTweetPy l).getLast? = some '.') := by
  constructor
  · intro l h
    have heq : shapeTweet l = (collapseNL l).take 279 ++ ['…'] := by
      unfold shapeTweet MAX_TWEET_LENGTH
      rw [if_pos (by omega)]
    refine ⟨heq, ?_, ?_⟩
    · rw [heq]
      simp only [List.length_append, List.length_take, List.length_cons,
        List.length_nil]
      omega
    · rw [heq]
      exact List.getLast?_append_cons _ '…' []
  · intro l h
    have heq : shapeTweetPy l
        = ((pyStrip l).map nlToSpace).take 277 ++ ['.', '.', '.'] := by
      unfold shapeTweetPy
      rw [if_pos (by omega)]
    refine ⟨heq, ?_, ?_⟩
    · rw [heq]
      simp only [List.length_append, List.length_take, List.length_cons,
        List.length_nil]
      omega
    · rw [heq]
      have := List.getLast?_append_cons (((pyStrip l).map nlToSpace).take 277) '.'
        ['.', '.']
      rw [this]
      rfl

/-- Claim C1 amended, witness at a concrete 281-character input with no
newlines: collapsing leaves it at 281 characters, so both shapings truncate. -/
theorem C1_amended_truncation_witness :
    shapeTweet (List.replicate 281 'a')
      = (collapseNL (List.replicate 281 'a')).take 279 ++ ['…'] ∧
    shapeTweetPy (List.replicate 281 'a')
      = ((pyStrip (List.replicate 281 'a')).map nlToSpace).take 277
        ++ ['.', '.', '.'] :=
  ⟨(C1_amended_truncation.1 (List.replicate 281 'a') (by decide)).1,
   (C1_amended_truncation.2 (List.replicate 281 'a') (by decide)).1⟩

/-- Claim C3 as stated is false: with `GEMINI_API_KEY` unset,
`paraphrase_for_tweet` on non-empty input raises `EnvironmentError` (it
propagates to the caller) instead of returning the empty string. -/
theorem C3_counterexample :
    paraphrase_for_tweet ⟨none, GenOutcome.exc⟩ ['x'] = .error PyError.envError ∧
    paraphrase_for_tweet ⟨none, GenOutcome.exc⟩ ['x'] ≠ .ok [] :=
  ⟨rfl, fun h => Except.noConfusion h⟩

/-- Claim C3 amended: an exception raised by the generation call itself is
swallowed and yields the empty string, with no error kind distinguishable by
the caller; but a missing or empty generation-service credential raises an
`EnvironmentError` that propagates out of `paraphrase_for_tweet`. -/
theorem C3_amended_error_swallowing :
    (∀ (env : GenEnv) (text : List Char), text ≠ [] → env.result = .exc →
      (∃ k, get_env_var env.geminiKey = .ok k) →
      paraphrase_for_tweet env text = .ok []) ∧
    (∀ (env : GenEnv) (text : List Char), text ≠ [] →
      get_env_var env.geminiKey = .error .envError →
      paraphrase_for_tweet env text = .error .envError) := by
  constructor
  · intro env text htext hexc ⟨k, hk⟩
    unfold paraphrase_for_tweet
    rw [if_neg htext, hk, hexc]
  · intro env text htext hk
    unfold paraphrase_for_tweet
    rw [if_neg htext, hk]

/-- Claim C3 amended, witness: a failing API call with a valid key yields the
empty string; a missing key raises. -/
theorem C3_amended_error_swallowing_witness :
    paraphrase_for_tweet ⟨some ['k'], GenOutcome.exc⟩ ['x'] = .ok [] ∧
    paraphrase_for_tweet ⟨none, GenOutcome.ok ['t']⟩ ['x']
      = .error PyError.envError :=
  ⟨C3_amended_error_swallowing.1 ⟨some ['k'], GenOutcome.exc⟩ ['x']
     (by decide) rfl ⟨['k'], rfl⟩,
   C3_amended_error_swallowing.2 ⟨none, GenOutcome.ok ['t']⟩ ['x']
     (by decide) rfl⟩

/-- Unfolding of `save_output_contents` at an explicit note. -/
theorem save_output_contents_some (ts tweet linkedin n : List Char) :
    save_output_contents ts tweet linkedin (some n)
      = ("===== Generated on ".toList ++ ts ++ "Z =====\n".toList) ++
        ("NOTE: ".toList ++ n ++ "\n".toList) ++
        ("--- X / TWEET ---\n".toList ++ pyRstrip tweet ++ "\n\n".toList ++
         "--- LINKEDIN POST ---\n".toList ++ pyRstrip linkedin ++ "\n".toList ++
         "\n".toList) := rfl

/-- Claim C4 as stated is false in its exit-code-6 clause: in the two-platform
variant, a posting API error (`TweepyException`) — not an unexpected error —
produces exit code 6. -/
theorem C4_counterexample :
    Except.map Prod.fst (V2.main envC4api) = .ok 6 ∧
    envC4api.post = PostOutcome.apiError ∧
    envC4api.post ≠ PostOutcome.unexpectedError :=
  ⟨rfl, rfl, fun h => PostOutcome.noConfusion h⟩

/-- Claim C4 amended: an empty shaped tweet (in particular an empty input
file) yields exit 4 in both variants (in the single-platform variant, once
client initialization has succeeded); an empty long-form post yields exit 5 in
the two-platform variant; a posting API error yields exit 5 in the
single-platform variant; exit 7 comes only from unexpected posting errors,
while exit 6 comes from an unexpected posting error in the single-platform
variant but from a posting API error in the two-platform variant. -/
theorem C4_amended_exit_codes :
    (∀ (e : Env1) (raw : List Char), e.init = .ok → e.read = .ok raw →
      pyStrip raw = [] → V1.main e = .ok (4, [])) ∧
    (∀ (e : Env1) (tw : List Char), e.init = .ok →
      V1.generate_learning_update e = .ok tw → truncate_tweet tw = [] →
      V1.main e = .ok (4, [])) ∧
    (∀ (e : Env2) (tw lp : List Char),
      V2.generate_learning_update e = .ok (tw, lp) → truncate_tweet tw = [] →
      V2.main e = .ok (4, [])) ∧
    (∀ (e : Env2) (tw lp : List Char),
      V2.generate_learning_update e = .ok (tw, lp) → truncate_tweet tw ≠ [] →
      lp = [] → V2.main e = .ok (5, [])) ∧
    (∀ (e : Env1) (tw : List Char), e.init = .ok →
      V1.generate_learning_update e = .ok tw → truncate_tweet tw ≠ [] →
      e.dryRun = false → e.post = .apiError →
      V1.main e = .ok (5, [Event.postTweet (truncate_tweet tw)])) ∧
    (∀ (e : Env1) (code : Nat) (tr : List Event),
      V1.main e = .ok (code, tr) → code = 6 → e.post = .unexpectedError) ∧
    (∀ (e : Env2) (code : Nat) (tr : List Event),
      V2.main e = .ok (code, tr) → code = 7 → e.post = .unexpectedError) ∧
    (∀ (e : Env2) (code : Nat) (tr : List Event),
      V2.main e = .ok (code, tr) → code = 6 → e.post = .apiError) := by
  refine ⟨?_, ?_, ?_, ?_, ?_, ?_, ?_, ?_⟩
  · intro e raw hinit hread hempty
    have hg : V1.generate_learning_update e = .ok [] := by
      unfold V1.generate_learning_update
      simp only [hread, hempty, if_pos]
    unfold V1.main
    simp only [hinit, hg]
    rfl
  · intro e tw hinit hg htw
    unfold V1.main
    simp only [hinit, hg, htw, if_pos]
  · intro e tw lp hg htw
    unfold V2.main
    simp only [hg, htw, if_pos]
  · intro e tw lp hg htw hlp
    unfold V2.main
    simp only [hg, hlp]
    rw [if_neg htw]
    rfl
  · intro e tw hinit hg htw hdry hpost
    unfold V1.main
    simp only [hinit, hg, hdry, hpost]
    rw [if_neg htw]
    rfl
  · intro e code tr h hc
    subst hc
    unfold V1.main at h
    cases hinit : e.init <;> simp only [hinit] at h
    · cases hg : V1.generate_learning_update e <;> simp only [hg] at h
      · exact Except.noConfusion h
      · split at h
        · simp at h
        · split at h
          · simp at h
          · cases hp : e.post <;> simp only [hp] at h
            · simp at h
            · simp at h
            · rfl
    · simp at h
    · simp at h
  · intro e code tr h hc
    subst hc
    unfold V2.main at h
    cases hg : V2.generate_learning_update e <;> simp only [hg] at h
    · exact Except.noConfusion h
    · rename_i p
      obtain ⟨tw0, lp⟩ := p
      split at h
      · simp at h
      · split at h
        · simp at h
        · split at h
          · simp at h
          · cases hinit : e.init <;> simp only [hinit] at h
            · split at h
              · cases hp : e.post <;> simp only [hp] at h
                · simp at h
                · simp at h
                · rfl
              · simp at h
            · simp at h
            · simp at h
  · intro e code tr h hc
    subst hc
    unfold V2.main at h
    cases hg : V2.generate_learning_update e <;> simp only [hg] at h
    · exact Except.noConfusion h
    · rename_i p
      obtain ⟨tw0, lp⟩ := p
      split at h
      · simp at h
      · split at h
        · simp at h
        · split at h
          · simp at h
          · cases hinit : e.init <;> simp only [hinit] at h
            · split at h
              · cases hp : e.post <;> simp only [hp] at h
                · simp at h
                · rfl
                · simp at h
              · simp at h
            · simp at h
            · simp at h

/-- Claim C4 amended, witness: an empty input file with working credentials
exits 4 in the single-platform variant; a failing LinkedIn generation with a
successful tweet exits 5 in the two-platform variant. -/
theorem C4_amended_exit_codes_witness :
    V1.main envC4empty = .ok (4, []) ∧ V2.main envC4lpEmpty = .ok (5, []) :=
  ⟨C4_amended_exit_codes.1 envC4empty [] rfl rfl rfl,
   C4_amended_exit_codes.2.2.2.1 envC4lpEmpty ['h'] [] rfl (by decide) rfl⟩

/-- Claim C5 as stated is false for the single-platform variant: a dry run
with successful generation exits 0 without posting, but its event trace is
empty — no output record containing the dry-run note (or anything else) is
ever appended, because src/script.py never writes an output file. -/
theorem C5_counterexample :
    envC5dry1.dryRun = true ∧ V1.main envC5dry1 = .ok (0, []) :=
  ⟨rfl, rfl⟩

/-- Claim C5 amended: with `DRY_RUN=true` and non-empty generated texts, the
two-platform variant exits 0, performs no posting call, and appends exactly
one output record, which contains the line `NOTE: DRY RUN`; the
single-platform variant exits 0 and performs no posting call but appends no
output record at all. -/
theorem C5_amended_dry_run :
    (∀ (e : Env2) (tw lp : List Char),
      e.dryRun = true →
      V2.generate_learning_update e = .ok (tw, lp) →
      truncate_tweet tw ≠ [] → lp ≠ [] →
      ∃ rec, V2.main e = .ok (0, [Event.writeRecord rec]) ∧
        ∃ s t, rec = s ++ "NOTE: DRY RUN\n".toList ++ t) ∧
    (∀ (e : Env1) (tw : List Char),
      e.dryRun = true → e.init = .ok →
      V1.generate_learning_update e = .ok tw →
      truncate_tweet tw ≠ [] →
      V1.main e = .ok (0, [])) := by
  constructor
  · intro e tw lp hdry hg htw hlp
    refine ⟨save_output_contents e.ts (truncate_tweet tw) lp
      (some "DRY RUN".toList), ?_, ?_⟩
    · unfold V2.main
      simp only [hg, hdry]
      rw [if_neg htw, if_neg hlp]
      rfl
    · refine ⟨"===== Generated on ".toList ++ e.ts ++ "Z =====\n".toList,
        "--- X / TWEET ---\n".toList ++ pyRstrip (truncate_tweet tw)
          ++ "\n\n".toList ++ "--- LINKEDIN POST ---\n".toList ++ pyRstrip lp
          ++ "\n".toList ++ "\n".toList, ?_⟩
      rw [save_output_contents_some]
      have hN : ("NOTE: ".toList ++ "DRY RUN".toList ++ "\n".toList : List Char)
          = "NOTE: DRY RUN\n".toList := by decide
      rw [hN]
  · intro e tw hdry hinit hg htw
    unfold V1.main
    simp only [hinit, hg, hdry]
    rw [if_neg htw]
    rfl

/-- Claim C5 amended, witness: concrete dry runs of both variants. -/
theorem C5_amended_dry_run_witness :
    (∃ rec, V2.main envC5dry2 = .ok (0, [Event.writeRecord rec]) ∧
      ∃ s t, rec = s ++ "NOTE: DRY RUN\n".toList ++ t) ∧
    V1.main envC5dry1 = .ok (0, []) :=
  ⟨C5_amended_dry_run.1 envC5dry2 ['h'] ['p'] rfl rfl (by decide) (by decide),
   C5_amended_dry_run.2 envC5dry1 ['h', 'i'] rfl rfl rfl (by decide)⟩

/-- Claim C9: in every run of the two-platform variant that returns an exit
code, every call to the posting API carries exactly the shaped tweet text —
the LinkedIn text is never passed to the posting API. -/
theorem C9_only_tweet_posted (e : Env2) (code : Nat) (tr : List Event)
    (hmain : V2.main e = .ok (code, tr)) (t : List Char)
    (ht : Event.postTweet t ∈ tr) :
    ∃ tw lp, V2.generate_learning_update e = .ok (tw, lp) ∧
      t = truncate_tweet tw := by
  unfold V2.main at hmain
  cases hg : V2.generate_learning_update e <;> simp only [hg] at hmain
  · exact Except.noConfusion hmain
  · rename_i p
    obtain ⟨tw, lp⟩ := p
    refine ⟨tw, lp, rfl, ?_⟩
    repeat' split at hmain
    all_goals
      simp only [Except.ok.injEq, Prod.mk.injEq] at hmain
    all_goals
      obtain ⟨-, htr⟩ := hmain
    all_goals
      subst htr
    all_goals
      simp_all

/-- Claim C9 witness: a concrete posting run, in which the posted text is the
shaped tweet. -/
theorem C9_only_tweet_posted_witness :
    ∃ tw lp, V2.generate_learning_update envC9post = .ok (tw, lp) ∧
      ['h', 'i'] = truncate_tweet tw :=
  C9_only_tweet_posted envC9post 0 traceC9 rfl ['h', 'i'] (by decide)
